import Mathlib

/-!
# Verification of the offline-yt download/ingest pipeline

A shallow embedding, in Lean, of the core logic of the `offline-yt`
repository (FastAPI + yt-dlp offline YouTube client):

* the reconcile path of `POST /videos/fetch` (`app/api/routes.py`,
  `fetch_videos`) together with the batch helpers of
  `app/services/database.py`;
* the download orchestration and outcome classification of
  `YouTubeService.download_video` / `run_download`
  (`app/services/youtube.py`);
* the in-memory progress map (`active_downloads`) and the progress
  query endpoint;
* the byte-range serving logic of `serve_video` (`app/api/routes.py`);
* `delete_video` and the channel-video fetch post-processing of
  `YouTubeService.get_channel_videos`.

Databases are modelled as lists of rows, the filesystem as lists of
file names (plus byte lists for the served media file), Python dicts as
association lists with replace-or-append assignment, and Python floats
as rationals.
-/

set_option autoImplicit false

namespace OfflineYt

/-- The `published_at` value computed by the metadata fetcher
(`youtube.py`, lines 134-153): a precise epoch timestamp when the entry
has a truthy `timestamp` field, a UTC-midnight date parsed from an
8-digit `upload_date` string, or the current time as a fallback.  The
three sources are kept symbolic; no calendar arithmetic is needed by
the claims. -/
inductive PublishedAt where
  | fromTimestamp (ts : Int)
  | fromUploadDate (year month day : Nat)
  | nowFallback
deriving DecidableEq, Repr

/-- A row of the `videos` table (`app/models/models.py`).  `DateTime`
columns are abstract `Int` instants, `Float` progress is a rational.
Column defaults (`is_downloaded=False`, `download_progress=0.0`,
nullable download columns) are the structure-field defaults. -/
structure Video where
  id : String
  channel_id : String
  title : String
  description : String
  published_at : PublishedAt
  thumbnail_url : String
  duration : Int
  view_count : Int
  like_count : Int
  is_downloaded : Bool := false
  downloaded_at : Option Int := none
  downloaded_resolution : Option String := none
  download_progress : Rat := 0
deriving DecidableEq, Repr

/-- One normalized video record as produced by
`YouTubeService.get_channel_videos` (`youtube.py`, lines 158-167): the
dict with keys `id`, `title`, `description`, `published_at`,
`thumbnail_url`, `duration`, `view_count`, `like_count`. -/
structure FetchedVideo where
  id : String
  title : String
  description : String
  published_at : PublishedAt
  thumbnail_url : String
  duration : Int
  view_count : Int
  like_count : Int
deriving DecidableEq, Repr

/-- The field-update dict built for an existing video in
`routes.fetch_videos` (`routes.py`, lines 221-229): exactly the seven
content-metadata columns, no download-status columns. -/
structure MetaUpdate where
  title : String
  description : String
  thumbnail_url : String
  duration : Int
  view_count : Int
  like_count : Int
  published_at : PublishedAt
deriving DecidableEq, Repr

/-! ## Python dicts as association lists

`videos_to_update` and `active_downloads` are Python dicts; we model
them as insertion-ordered association lists where assignment replaces
the value of an existing key in place and otherwise appends. -/

/-- `d[k]` lookup returning `none` when the key is absent. -/
def dictLookup {β : Type} (d : List (String × β)) (k : String) : Option β :=
  (d.find? (fun p => p.1 == k)).map (fun p => p.2)

/-- `d[k] = v` assignment: replace in place if the key exists,
otherwise append (Python dict insertion order). -/
def dictInsert {β : Type} (d : List (String × β)) (k : String) (v : β) :
    List (String × β) :=
  if d.any (fun p => p.1 == k) then
    d.map (fun p => if p.1 == k then (k, v) else p)
  else
    d ++ [(k, v)]

/-- `d.pop(k, None)`: remove the key if present. -/
def dictErase {β : Type} (d : List (String × β)) (k : String) :
    List (String × β) :=
  d.filter (fun p => p.1 != k)

namespace DatabaseService

/-- `DatabaseService.get_videos_by_ids` (`database.py`, lines 148-156):
`SELECT * FROM videos WHERE id IN ids`, modelled over a list store. -/
def get_videos_by_ids (store : List Video) (ids : List String) : List Video :=
  store.filter (fun v => ids.contains v.id)

/-- `DatabaseService.create_videos_batch` (`database.py`, lines
158-171): insert all rows. -/
def create_videos_batch (store : List Video) (rows : List Video) : List Video :=
  store ++ rows

/-- The effect of `UPDATE videos SET <data> WHERE id = video_id` for
the seven-key dict built in `routes.fetch_videos`: overwrite exactly
the content-metadata columns. -/
def applyMetaUpdate (v : Video) (u : MetaUpdate) : Video :=
  { v with
    title := u.title
    description := u.description
    thumbnail_url := u.thumbnail_url
    duration := u.duration
    view_count := u.view_count
    like_count := u.like_count
    published_at := u.published_at }

/-- The effect of the whole `videos_to_update` dict on a single row:
apply the (unique) entry for the row's id, if any. -/
def updateRow (updates : List (String × MetaUpdate)) (v : Video) : Video :=
  match dictLookup updates v.id with
  | some u => applyMetaUpdate v u
  | none => v

/-- `DatabaseService.update_videos_batch` (`database.py`, lines
173-196): one `UPDATE ... WHERE id = video_id` per dict entry.  Dict
keys are unique, so this is a map over the store applying the (unique)
matching entry. -/
def update_videos_batch (store : List Video) (updates : List (String × MetaUpdate)) :
    List Video :=
  store.map (updateRow updates)

/-- `DatabaseService.get_video` (`database.py`, lines 139-142): first
row with the given id. -/
def get_video (store : List Video) (video_id : String) : Option Video :=
  store.find? (fun v => v.id == video_id)

end DatabaseService

/-- The in-memory `active_downloads` dict of `YouTubeService`: video id
to fractional progress. -/
abbrev ProgressMap : Type := List (String × Rat)

/-- Suffix test over the character data (the model of a
`glob('*.ext')` match on a file name). -/
def strEndsWith (s suffix : String) : Bool :=
  suffix.data.isSuffixOf s.data

/-- Whether `needle` occurs as a contiguous run inside `haystack`. -/
def containsSeq (needle : List Char) : List Char → Bool
  | [] => needle.isPrefixOf []
  | c :: t => needle.isPrefixOf (c :: t) || containsSeq needle t

namespace YouTubeService

/-- Python's `needle in haystack` substring test. -/
def strContains (haystack needle : String) : Bool :=
  containsSeq needle.data haystack.data

/-- `"Sign in to confirm your age"` (`youtube.py`, line 492). -/
def ageNeedle : String := "Sign in to confirm your age"

/-- `"requested format not available"` (`youtube.py`, line 495). -/
def formatNeedle : String := "requested format not available"

/-- Error message set on the age-verification branch (line 494). -/
def ageMessage : String :=
  "Age verification required. Please sign in with a YouTube account."

/-- Error message set on the format branch (line 496). -/
def formatMessage (resolution : String) : String :=
  "The requested format (" ++ resolution ++ ") is not available. Try a different resolution."

/-- Error message set on the generic non-zero-exit branch (line 498). -/
def codeMessage (returncode : Int) : String :=
  "yt-dlp failed with code " ++ toString returncode ++ ". Check server logs for details."

/-- Message of the `no_files` failure result (line 567). -/
def noFilesMessage : String :=
  "Download completed, but no media files were found."

/-- Message of the success result (line 573). -/
def successMessage : String := "Video downloaded successfully."

/-- Message of the `auth_required` failure result (line 583). -/
def authRequiredMessage : String :=
  "YouTube requires authentication to download this video. Please set up a cookies.txt file with YouTube login credentials."

/-- How the inner `run_download` coroutine terminates: the yt-dlp
subprocess completes with an exit code and captured output streams, or
an exception is raised inside `run_download` (caught there, lines
546-549). -/
inductive RunEvent where
  | completed (returncode : Int) (stdout_str stderr_str : String)
  | raised (msg : String)
deriving DecidableEq, Repr

/-- The observable effect of `run_download` (`youtube.py`, lines
447-549): the returned code plus the `error_message` / `auth_required`
nonlocals it assigns.  The audio/video merge step only rewrites files
and never changes the returned code. -/
structure RunOutcome where
  result : Int
  auth_required : Bool
  error_message : Option String
deriving DecidableEq, Repr

/-- The age/sign-in check of line 492: the needle is searched in both
captured streams. -/
def hasAgeMessage (stdout_str stderr_str : String) : Bool :=
  strContains stdout_str ageNeedle || strContains stderr_str ageNeedle

/-- The format-availability check of line 495. -/
def hasFormatMessage (stdout_str stderr_str : String) : Bool :=
  strContains stdout_str formatNeedle || strContains stderr_str formatNeedle

/-- `run_download` classification logic (`youtube.py`, lines 489-502
and 546-549).  On non-zero exit the age message is checked first in
both streams, then the format message; an exception inside the
coroutine yields result `1` with `error_message = str(e)` and
`auth_required` untouched. -/
def run_download (resolution : String) (ev : RunEvent) : RunOutcome :=
  match ev with
  | .raised msg => { result := 1, auth_required := false, error_message := some msg }
  | .completed returncode stdout_str stderr_str =>
    if returncode != 0 then
      if hasAgeMessage stdout_str stderr_str then
        { result := returncode, auth_required := true, error_message := some ageMessage }
      else if hasFormatMessage stdout_str stderr_str then
        { result := returncode, auth_required := false,
          error_message := some (formatMessage resolution) }
      else
        { result := returncode, auth_required := false,
          error_message := some (codeMessage returncode) }
    else
      { result := returncode, auth_required := false, error_message := none }

/-- The media-file glob of line 560:
`glob("*.mp4") + glob("*.webm") + glob("*.m4a")` over the video
directory contents. -/
def mediaFilesIn (files : List String) : List String :=
  files.filter (fun f => strEndsWith f ".mp4")
    ++ files.filter (fun f => strEndsWith f ".webm")
    ++ files.filter (fun f => strEndsWith f ".m4a")

/-- The result dict of `download_video`
(`{"success": ..., "error_type": ..., "message": ...}`); the success
dict has no `error_type` key. -/
structure DownloadResult where
  success : Bool
  error_type : Option String
  message : String
deriving DecidableEq, Repr

/-- Program points inside the outer `try` of `download_video` from
which an exception can escape to the handler at lines 623-630, by the
progress-map state each leaves behind: before the initialization at
line 437 (e.g. `video_dir.mkdir` at line 353 or `cookies_path.stat()`
at line 391) the map is untouched; after line 437 and before line 557
or line 577 the entry holds the initialized `0.0`; inside the exit-0
branch after line 557 (e.g. the directory glob at line 560) it holds
`1.0`.  No statement after the pop at line 577 can raise. -/
inductive RaisePoint where
  | beforeInit
  | afterInit
  | afterSuccessWrite
deriving DecidableEq, Repr

/-- How one `download_video` orchestration run unfolds: either
`run_download` runs to an event with the video directory afterwards
holding `files`, or an exception escapes from some point of the outer
`try` (which starts at line 350, before the progress-map
initialization at line 437) and is caught by the handler at lines
623-630. -/
inductive OrchestrationEvent where
  | run (ev : RunEvent) (files : List String)
  | orchestrationRaised (msg : String) (pt : RaisePoint)
deriving DecidableEq, Repr

/-- `YouTubeService.download_video` (`youtube.py`, lines 345-630):
progress-map initialization (line 437), the `run_download` call, and
the outcome classification of lines 554-630.  The HTML-response check
of lines 593-621 does not appear because it is unreachable: both
branches of `if download_result == 0` return first, so control never
reaches line 594 (and `downloaded_files` stays empty anyway, since the
progress hook is only attached to the unused `download_opts`).
Returns the result dict and the final `active_downloads` map; on an
exception the map reflects how far the run got before raising. -/
def download_video (video_id resolution : String) (ev : OrchestrationEvent)
    (active : ProgressMap) : DownloadResult × ProgressMap :=
  match ev with
  | .orchestrationRaised msg pt =>
    (⟨false, some "exception", "Error: " ++ msg⟩,
      match pt with
      | .beforeInit => active
      | .afterInit => dictInsert active video_id 0
      | .afterSuccessWrite => dictInsert (dictInsert active video_id 0) video_id 1)
  | .run rev files =>
    let active1 := dictInsert active video_id 0
    let r := run_download resolution rev
    if r.result == 0 then
      let active2 := dictInsert active1 video_id 1
      if (mediaFilesIn files).isEmpty then
        (⟨false, some "no_files", noFilesMessage⟩, active2)
      else
        (⟨true, none, successMessage⟩, active2)
    else
      let active2 := dictErase active1 video_id
      if r.auth_required then
        (⟨false, some "auth_required", authRequiredMessage⟩, active2)
      else
        (⟨false, some "download_failed",
          r.error_message.getD ("Failed to download video " ++ video_id)⟩, active2)

/-- `YouTubeService.get_download_progress` (`youtube.py`, lines
632-634): `self.active_downloads.get(video_id, 0.0)`. -/
def get_download_progress (active : ProgressMap) (video_id : String) : Rat :=
  (dictLookup active video_id).getD 0

end YouTubeService

namespace YouTubeService

/-- One JSON object printed by the `yt-dlp --dump-json` subprocess in
`get_channel_videos` (`youtube.py`, lines 93-107), restricted to the
keys the processing loop reads.  `none` stands for a missing (or JSON
null) key; lines that fail to parse as JSON are skipped before this
point. -/
structure Entry where
  id : Option String := none
  title : Option String := none
  description : Option String := none
  timestamp : Option Int := none
  upload_date : Option String := none
  duration : Option Int := none
  view_count : Option Int := none
  like_count : Option Int := none
deriving DecidableEq, Repr

/-- `int(s)` on a slice of the 8-digit upload date: digits only (the
slices here never carry signs or whitespace). -/
def parsePyNat (s : String) : Option Nat :=
  if s.length > 0 && s.toList.all Char.isDigit then
    some (s.toList.foldl (fun n c => n * 10 + (c.toNat - 48)) 0)
  else none

/-- Gregorian leap year, as `datetime` uses. -/
def isLeapYear (y : Nat) : Bool :=
  (y % 4 == 0 && y % 100 != 0) || y % 400 == 0

/-- Days in a month, as `datetime` validates. -/
def daysInMonth (y m : Nat) : Nat :=
  if m == 2 then (if isLeapYear y then 29 else 28)
  else if m == 4 || m == 6 || m == 9 || m == 11 then 30
  else 31

/-- `datetime(year, month, day)` raises `ValueError` (caught at line
148) outside these bounds. -/
def validDate (y m d : Nat) : Bool :=
  1 ≤ y && y ≤ 9999 && 1 ≤ m && m ≤ 12 && 1 ≤ d && d ≤ daysInMonth y m

/-- The `upload_date` parse of lines 143-149: `int` of the three
slices `[:4]`, `[4:6]`, `[6:8]`, with `ValueError` (bad digits or an
invalid calendar date) mapping to `none`. -/
def parseUploadDate (ud : String) : Option (Nat × Nat × Nat) :=
  match parsePyNat (ud.take 4), parsePyNat ((ud.drop 4).take 2), parsePyNat (ud.drop 6) with
  | some y, some m, some d => if validDate y m d then some (y, m, d) else none
  | _, _, _ => none

/-- The published-date derivation of lines 134-153: a truthy
`timestamp` wins, then a nonempty 8-character `upload_date` that
parses, then the current time. -/
def computePublishedAt (e : Entry) : PublishedAt :=
  let uploadBranch : PublishedAt :=
    let ud := e.upload_date.getD ""
    if ud != "" && ud.length == 8 then
      match parseUploadDate ud with
      | some (y, m, d) => .fromUploadDate y m d
      | none => .nowFallback
    else .nowFallback
  match e.timestamp with
  | some ts => if ts != 0 then .fromTimestamp ts else uploadBranch
  | none => uploadBranch

/-- The per-entry processing of lines 127-171: skip entries whose id
is missing or empty, then build the normalized record with defaulted
fields and the synthesized thumbnail URL. -/
def processEntry (e : Entry) : Option FetchedVideo :=
  match e.id with
  | none => none
  | some vid =>
    if vid == "" then none
    else some
      { id := vid
        title := e.title.getD "Untitled Video"
        description := e.description.getD ""
        published_at := computePublishedAt e
        thumbnail_url := "https://i.ytimg.com/vi/" ++ vid ++ "/maxresdefault.jpg"
        duration := e.duration.getD 0
        view_count := e.view_count.getD 0
        like_count := e.like_count.getD 0 }

/-- `YouTubeService.get_channel_videos` (`youtube.py`, lines 50-178)
after the subprocess output has been parsed: the raw entry list (with
`none` for JSON-null entries, filtered out at line 122) is processed
entry by entry.  The `video_opts` dict built at lines 62-69 (including
`playlistend: 30`) is never passed to the subprocess command, so no
fixed page-size cap is applied here. -/
def get_channel_videos (rawEntries : List (Option Entry)) : List FetchedVideo :=
  let entries := rawEntries.filterMap id
  entries.filterMap processEntry

end YouTubeService

namespace Routes

/-- The seven-key update dict literal of `routes.fetch_videos`
(`routes.py`, lines 221-229). -/
def videoUpdateFields (v : FetchedVideo) : MetaUpdate :=
  { title := v.title
    description := v.description
    thumbnail_url := v.thumbnail_url
    duration := v.duration
    view_count := v.view_count
    like_count := v.like_count
    published_at := v.published_at }

/-- The creation dict literal of `routes.fetch_videos` (`routes.py`,
lines 232-243): all content fields, the requesting channel id, and
`is_downloaded: False`; the remaining download columns take their
database defaults. -/
def videoCreateRow (channel_id : String) (v : FetchedVideo) : Video :=
  { id := v.id
    channel_id := channel_id
    title := v.title
    description := v.description
    published_at := v.published_at
    thumbnail_url := v.thumbnail_url
    duration := v.duration
    view_count := v.view_count
    like_count := v.like_count
    is_downloaded := false }

/-- One iteration of the partition loop of `routes.fetch_videos`
(`routes.py`, lines 218-243): append to `videos_to_create` or assign
into the `videos_to_update` dict. -/
def reconcileStep (channel_id : String) (existing_video_ids : List String)
    (acc : List Video × List (String × MetaUpdate)) (v : FetchedVideo) :
    List Video × List (String × MetaUpdate) :=
  if existing_video_ids.contains v.id then
    (acc.1, dictInsert acc.2 v.id (videoUpdateFields v))
  else
    (acc.1 ++ [videoCreateRow channel_id v], acc.2)

/-- The full partition loop: fold `reconcileStep` over the fetched
batch starting from an empty create list and an empty update dict. -/
def reconcile (channel_id : String) (existing_video_ids : List String)
    (fetched : List FetchedVideo) : List Video × List (String × MetaUpdate) :=
  fetched.foldl (reconcileStep channel_id existing_video_ids) ([], [])

/-- `existing_video_ids` (`routes.py`, lines 211-215): the ids of the
store rows matching any fetched id, via the single batched
`get_videos_by_ids` lookup. -/
def existing_video_ids (store : List Video) (fetched : List FetchedVideo) : List String :=
  (DatabaseService.get_videos_by_ids store (fetched.map FetchedVideo.id)).map Video.id

/-- The store-level effect of `routes.fetch_videos` (`routes.py`,
lines 208-247): partition the batch, then `create_videos_batch`
followed by `update_videos_batch`. -/
def fetch_videos (channel_id : String) (fetched : List FetchedVideo)
    (store : List Video) : List Video :=
  let r := reconcile channel_id (existing_video_ids store fetched) fetched
  DatabaseService.update_videos_batch
    (DatabaseService.create_videos_batch store r.1) r.2

/-- The progress endpoint `GET /videos/{video_id}/progress`
(`routes.py`, lines 381-406): in-memory value first; when it is `0.0`,
fall back to the database (404 → `none`), reporting `1.0` for a
downloaded video and the persisted `download_progress` otherwise. -/
def get_download_progress (active : ProgressMap) (store : List Video)
    (video_id : String) : Option Rat :=
  let progress := YouTubeService.get_download_progress active video_id
  if progress == 0 then
    match DatabaseService.get_video store video_id with
    | none => none
    | some v => some (if v.is_downloaded then 1 else v.download_progress)
  else some progress

/-- `DELETE /videos/{video_id}` (`routes.py`, lines 408-453) over a
store and a filesystem mapping video-id directory names to their file
lists: 404 when the video is absent; the download directory is touched
(emptied and removed) only when `is_downloaded` is true; the database
row is always removed. -/
def delete_video (store : List Video) (fs : List (String × List String))
    (video_id : String) : Option (List Video × List (String × List String)) :=
  match DatabaseService.get_video store video_id with
  | none => none
  | some v =>
    let fs1 := if v.is_downloaded then dictErase fs video_id else fs
    some (store.filter (fun w => w.id != video_id), fs1)

/-- The candidate list of `serve_video` (`routes.py`, line 500):
`glob('*.mp4') + glob('*.webm')` over the video directory listing. -/
def videoCandidates (files : List String) : List String :=
  files.filter (fun f => strEndsWith f ".mp4")
    ++ files.filter (fun f => strEndsWith f ".webm")

/-- `video_files[0]` (`routes.py`, line 509), `none` when the
candidate list is empty (404 at lines 502-506). -/
def servedFile (files : List String) : Option String :=
  (videoCandidates files).head?

/-- The partial-content response assembled at `routes.py`, lines
540-555. -/
structure RangeResponse where
  status : Nat
  content_range : String
  content_length : Int
  body : List Nat
deriving DecidableEq, Repr

/-- Python `f.seek(pos); f.read(n)`: a negative `n` reads to EOF,
otherwise at most `n` bytes. -/
def readBytes (file : List Nat) (pos : Nat) (n : Int) : List Nat :=
  if n < 0 then file.drop pos else (file.drop pos).take n.toNat

/-- The `end_range` computation of `routes.py`, lines 531-534: the
second regex group when present, defaulting to `file_size - 1`, then
clamped by `min` to `file_size - 1`. -/
def clampedEnd (file_size : Int) (end_group : Option Nat) : Int :=
  min (match end_group with | some e => (e : Int) | none => file_size - 1) (file_size - 1)

/-- The range branch of `serve_video` (`routes.py`, lines 526-555),
given the two matched groups of `bytes=(\d+)-(\d*)`: status 206, the
`Content-Range` and `Content-Length` headers, and the streamed body
`f.seek(start); f.read(content_length)`. -/
def serveRange (file : List Nat) (start_range : Nat) (end_group : Option Nat) :
    RangeResponse :=
  let file_size : Int := file.length
  let end_range : Int := clampedEnd file_size end_group
  let content_length : Int := end_range - start_range + 1
  { status := 206
    content_range :=
      "bytes " ++ toString start_range ++ "-" ++ toString end_range ++ "/" ++ toString file_size
    content_length := content_length
    body := readBytes file start_range content_length }

/-- The byte window `[start, end]` of a file, as the claims phrase it:
the direct slice `file[start .. end]` (empty when `end < start`). -/
def byteWindow (file : List Nat) (start_range : Nat) (end_range : Int) : List Nat :=
  (file.drop start_range).take (end_range - start_range + 1).toNat

end Routes

/-! ## Dictionary lemmas -/

theorem find?_map_replace {β : Type} (d : List (String × β)) (k : String) (v : β)
    (h : d.any (fun p => p.1 == k) = true) :
    (d.map (fun p => if p.1 == k then (k, v) else p)).find? (fun p => p.1 == k) =
      some (k, v) := by
  induction d with
  | nil => simp at h
  | cons p t ih =>
    by_cases hp : (p.1 == k) = true
    · rw [List.map_cons, if_pos hp, List.find?_cons_of_pos _ (by simp)]
    · simp only [List.any_cons, hp, Bool.false_or] at h
      rw [List.map_cons, if_neg hp, List.find?_cons_of_neg _ (by simpa using hp)]
      exact ih h

theorem dictLookup_dictInsert_self {β : Type} (d : List (String × β)) (k : String) (v : β) :
    dictLookup (dictInsert d k v) k = some v := by
  unfold dictLookup dictInsert
  by_cases h : d.any (fun p => p.1 == k) = true
  · rw [if_pos h, find?_map_replace d k v h]
    rfl
  · rw [if_neg h, List.find?_append]
    have hnone : d.find? (fun p => p.1 == k) = none := by
      rw [List.find?_eq_none]
      intro p hp hpk
      exact h (List.any_eq_true.mpr ⟨p, hp, hpk⟩)
    rw [hnone]
    simp [List.find?]

theorem dictLookup_dictErase_self {β : Type} (d : List (String × β)) (k : String) :
    dictLookup (dictErase d k) k = none := by
  unfold dictLookup dictErase
  have hnone : (d.filter (fun p => p.1 != k)).find? (fun p => p.1 == k) = none := by
    rw [List.find?_eq_none]
    intro p hp hpk
    have hne := (List.mem_filter.mp hp).2
    simp only [bne_iff_ne, ne_eq, decide_eq_true_eq] at hne
    exact hne (by simpa using hpk)
  rw [hnone]
  rfl

theorem dictLookup_map_pairs {β : Type} (l : List FetchedVideo) (g : FetchedVideo → β)
    (k : String) :
    dictLookup (l.map (fun v => (v.id, g v))) k =
      (l.find? (fun v => v.id == k)).map g := by
  induction l with
  | nil => rfl
  | cons v t ih =>
    cases hv : (v.id == k) with
    | true => simp [dictLookup, List.find?_cons, hv]
    | false => simpa [dictLookup, List.find?_cons, hv] using ih

/-! ## Reconcile lemmas -/

theorem updateRow_id (updates : List (String × MetaUpdate)) (v : Video) :
    (DatabaseService.updateRow updates v).id = v.id := by
  unfold DatabaseService.updateRow
  cases dictLookup updates v.id <;> rfl

theorem updateRow_frame (updates : List (String × MetaUpdate)) (v : Video) :
    (DatabaseService.updateRow updates v).id = v.id ∧
    (DatabaseService.updateRow updates v).is_downloaded = v.is_downloaded ∧
    (DatabaseService.updateRow updates v).downloaded_at = v.downloaded_at ∧
    (DatabaseService.updateRow updates v).downloaded_resolution = v.downloaded_resolution ∧
    (DatabaseService.updateRow updates v).download_progress = v.download_progress := by
  unfold DatabaseService.updateRow
  cases dictLookup updates v.id <;> exact ⟨rfl, rfl, rfl, rfl, rfl⟩

theorem updateRow_eq_of_lookup_none (updates : List (String × MetaUpdate)) (v : Video)
    (h : dictLookup updates v.id = none) :
    DatabaseService.updateRow updates v = v := by
  unfold DatabaseService.updateRow
  rw [h]

theorem updateRow_eq_of_lookup_some (updates : List (String × MetaUpdate)) (v : Video)
    (u : MetaUpdate) (h : dictLookup updates v.id = some u) :
    DatabaseService.updateRow updates v = DatabaseService.applyMetaUpdate v u := by
  unfold DatabaseService.updateRow
  rw [h]

/-- `routes.fetch_videos` in map form: create the new rows, then map
the per-row update over the extended store. -/
theorem fetch_videos_map_form (channel_id : String) (fetched : List FetchedVideo)
    (store : List Video) :
    Routes.fetch_videos channel_id fetched store =
      (store ++
          (Routes.reconcile channel_id (Routes.existing_video_ids store fetched) fetched).1).map
        (DatabaseService.updateRow
          (Routes.reconcile channel_id (Routes.existing_video_ids store fetched) fetched).2) :=
  rfl

/-- What the partition loop accumulates on the create side. -/
theorem reconcile_foldl_creates (channel_id : String) (ex : List String)
    (fetched : List FetchedVideo) (acc : List Video × List (String × MetaUpdate)) :
    (fetched.foldl (Routes.reconcileStep channel_id ex) acc).1 =
      acc.1 ++ (fetched.filter (fun v => !(ex.contains v.id))).map
        (Routes.videoCreateRow channel_id) := by
  induction fetched generalizing acc with
  | nil => simp
  | cons v t ih =>
    rw [List.foldl_cons, ih]
    by_cases hv : v.id ∈ ex
    · simp [Routes.reconcileStep, hv]
    · simp [Routes.reconcileStep, hv]

theorem reconcile_creates (channel_id : String) (ex : List String)
    (fetched : List FetchedVideo) :
    (Routes.reconcile channel_id ex fetched).1 =
      (fetched.filter (fun v => !(ex.contains v.id))).map
        (Routes.videoCreateRow channel_id) := by
  unfold Routes.reconcile
  rw [reconcile_foldl_creates]
  rfl

theorem dictInsert_of_fresh {β : Type} (d : List (String × β)) (k : String) (v : β)
    (h : ∀ p ∈ d, p.1 ≠ k) : dictInsert d k v = d ++ [(k, v)] := by
  unfold dictInsert
  rw [if_neg]
  intro hc
  obtain ⟨p, hp, hpk⟩ := List.any_eq_true.mp hc
  exact h p hp (by simpa using hpk)

/-- What the partition loop accumulates on the update side, when the
batch carries no duplicate ids. -/
theorem reconcile_foldl_updates (channel_id : String) (ex : List String)
    (fetched : List FetchedVideo) (acc : List Video × List (String × MetaUpdate))
    (hnd : (fetched.map FetchedVideo.id).Nodup)
    (hfresh : ∀ v ∈ fetched, ∀ p ∈ acc.2, p.1 ≠ v.id) :
    (fetched.foldl (Routes.reconcileStep channel_id ex) acc).2 =
      acc.2 ++ (fetched.filter (fun v => ex.contains v.id)).map
        (fun v => (v.id, Routes.videoUpdateFields v)) := by
  induction fetched generalizing acc with
  | nil => simp
  | cons v t ih =>
    simp only [List.map_cons, List.nodup_cons] at hnd
    obtain ⟨hvnin, hndt⟩ := hnd
    rw [List.foldl_cons]
    by_cases hv : ex.contains v.id = true
    · have hvm : v.id ∈ ex := by simpa using hv
      have hstep : Routes.reconcileStep channel_id ex acc v =
          (acc.1, acc.2 ++ [(v.id, Routes.videoUpdateFields v)]) := by
        unfold Routes.reconcileStep
        rw [if_pos hv, dictInsert_of_fresh _ _ _
          (fun p hp => hfresh v (List.mem_cons_self v t) p hp)]
      have hfresh2 : ∀ w ∈ t,
          ∀ p ∈ acc.2 ++ [(v.id, Routes.videoUpdateFields v)], p.1 ≠ w.id := by
        intro w hw p hp
        rcases List.mem_append.mp hp with hpa | hpb
        · exact hfresh w (List.mem_cons_of_mem v hw) p hpa
        · have hpv : p = (v.id, Routes.videoUpdateFields v) := by simpa using hpb
          subst hpv
          intro hcontra
          have hcc : v.id = w.id := hcontra
          refine hvnin ?_
          rw [hcc]
          exact List.mem_map.mpr ⟨w, hw, rfl⟩
      rw [hstep, ih (acc.1, acc.2 ++ [(v.id, Routes.videoUpdateFields v)]) hndt hfresh2]
      simp [hvm]
    · have hvm : ¬(v.id ∈ ex) := by simpa using hv
      have hstep : Routes.reconcileStep channel_id ex acc v =
          (acc.1 ++ [Routes.videoCreateRow channel_id v], acc.2) := by
        unfold Routes.reconcileStep
        rw [if_neg hv]
      have hfresh2 : ∀ w ∈ t, ∀ p ∈ acc.2, p.1 ≠ w.id := by
        intro w hw p hp
        exact hfresh w (List.mem_cons_of_mem v hw) p hp
      rw [hstep,
        ih (acc.1 ++ [Routes.videoCreateRow channel_id v], acc.2) hndt hfresh2]
      simp [hvm]

theorem reconcile_updates (channel_id : String) (ex : List String)
    (fetched : List FetchedVideo)
    (hnd : (fetched.map FetchedVideo.id).Nodup) :
    (Routes.reconcile channel_id ex fetched).2 =
      (fetched.filter (fun v => ex.contains v.id)).map
        (fun v => (v.id, Routes.videoUpdateFields v)) := by
  unfold Routes.reconcile
  rw [reconcile_foldl_updates channel_id ex fetched ([], []) hnd (by intro v hv p hp; cases hp)]
  rfl

/-- Membership in `existing_video_ids`: the id belongs to a store row
and occurs among the fetched ids. -/
theorem mem_existing_video_ids (store : List Video) (fetched : List FetchedVideo)
    (s : String) :
    s ∈ Routes.existing_video_ids store fetched ↔
      (∃ w ∈ store, w.id = s) ∧ s ∈ fetched.map FetchedVideo.id := by
  unfold Routes.existing_video_ids DatabaseService.get_videos_by_ids
  constructor
  · intro hmem
    obtain ⟨w, hw, rfl⟩ := List.mem_map.mp hmem
    obtain ⟨hws, hc⟩ := List.mem_filter.mp hw
    exact ⟨⟨w, hws, rfl⟩, by simpa using hc⟩
  · rintro ⟨⟨w, hws, rfl⟩, hsf⟩
    exact List.mem_map.mpr ⟨w, List.mem_filter.mpr ⟨hws, by simpa using hsf⟩, rfl⟩

/-- Row `i` of the once-updated extended store is the per-row update
of row `i` of the original store. -/
theorem update_create_row_get (l1 l2 : List Video) (u : List (String × MetaUpdate))
    (i : Nat) (hi : i < l1.length) :
    ∃ hj : i < ((l1 ++ l2).map (DatabaseService.updateRow u)).length,
      ((l1 ++ l2).map (DatabaseService.updateRow u)).get ⟨i, hj⟩ =
        DatabaseService.updateRow u (l1.get ⟨i, hi⟩) := by
  have hj : i < ((l1 ++ l2).map (DatabaseService.updateRow u)).length := by
    rw [List.length_map, List.length_append]
    omega
  refine ⟨hj, ?_⟩
  rw [List.get_eq_getElem, List.get_eq_getElem, List.getElem_map,
    List.getElem_append_left hi]

/-! ## Claim theorems -/

/-- C1: for every fetched batch and every store, reconciliation leaves
every pre-existing row in place with its id and all four
download-status fields (`is_downloaded`, `downloaded_at`,
`downloaded_resolution`, `download_progress`) unchanged: the update
dict carries only the seven content-metadata columns. -/
theorem reconcile_preserves_download_fields
    (channel_id : String) (fetched : List FetchedVideo) (store : List Video)
    (i : Nat) (hi : i < store.length) :
    ∃ hj : i < (Routes.fetch_videos channel_id fetched store).length,
      ((Routes.fetch_videos channel_id fetched store).get ⟨i, hj⟩).id =
        (store.get ⟨i, hi⟩).id ∧
      ((Routes.fetch_videos channel_id fetched store).get ⟨i, hj⟩).is_downloaded =
        (store.get ⟨i, hi⟩).is_downloaded ∧
      ((Routes.fetch_videos channel_id fetched store).get ⟨i, hj⟩).downloaded_at =
        (store.get ⟨i, hi⟩).downloaded_at ∧
      ((Routes.fetch_videos channel_id fetched store).get ⟨i, hj⟩).downloaded_resolution =
        (store.get ⟨i, hi⟩).downloaded_resolution ∧
      ((Routes.fetch_videos channel_id fetched store).get ⟨i, hj⟩).download_progress =
        (store.get ⟨i, hi⟩).download_progress := by
  rw [fetch_videos_map_form]
  obtain ⟨hj, hget⟩ := update_create_row_get store
    (Routes.reconcile channel_id (Routes.existing_video_ids store fetched) fetched).1
    (Routes.reconcile channel_id (Routes.existing_video_ids store fetched) fetched).2 i hi
  exact ⟨hj, by rw [hget]; exact updateRow_frame _ _⟩

/-- Witness for C1: a downloaded row survives an empty fetch batch
with its download flag intact. -/
theorem reconcile_preserves_download_fields_witness :
    ((Routes.fetch_videos "c1" []
        [{ id := "v1", channel_id := "c1", title := "t", description := "",
           published_at := .nowFallback, thumbnail_url := "", duration := 0,
           view_count := 0, like_count := 0, is_downloaded := true,
           downloaded_at := some 3, downloaded_resolution := some "720p",
           download_progress := 1 }]).get ⟨0, by decide⟩).is_downloaded =
      (([{ id := "v1", channel_id := "c1", title := "t", description := "",
           published_at := .nowFallback, thumbnail_url := "", duration := 0,
           view_count := 0, like_count := 0, is_downloaded := true,
           downloaded_at := some 3, downloaded_resolution := some "720p",
           download_progress := 1 }] : List Video).get ⟨0, by decide⟩).is_downloaded := by
  obtain ⟨hj, h1, h2, h3, h4, h5⟩ :=
    reconcile_preserves_download_fields "c1" []
      [{ id := "v1", channel_id := "c1", title := "t", description := "",
         published_at := .nowFallback, thumbnail_url := "", duration := 0,
         view_count := 0, like_count := 0, is_downloaded := true,
         downloaded_at := some 3, downloaded_resolution := some "720p",
         download_progress := 1 }] 0 (by decide)
  exact h2

/-- C10: when the downloaded video's directory contains at least one
`.mp4` file, the served candidate (`video_files[0]`) is an `.mp4` file
even if `.webm` files are also present, because the candidate list puts
all `.mp4` glob results before the `.webm` ones. -/
theorem serve_prefers_mp4 (files : List String)
    (h : files.filter (fun f => strEndsWith f ".mp4") ≠ []) :
    ∃ f, Routes.servedFile files = some f ∧ strEndsWith f ".mp4" = true := by
  unfold Routes.servedFile Routes.videoCandidates
  cases hl : files.filter (fun f => strEndsWith f ".mp4") with
  | nil => exact absurd hl h
  | cons a t =>
    refine ⟨a, ?_, ?_⟩
    · rfl
    · have ha : a ∈ files.filter (fun f => strEndsWith f ".mp4") := by
        rw [hl]
        exact List.mem_cons_self a t
      simpa using (List.mem_filter.mp ha).2

/-- Witness for C10 on a directory holding both container types. -/
theorem serve_prefers_mp4_witness :
    ∃ f, Routes.servedFile ["a.webm", "b.mp4"] = some f ∧ strEndsWith f ".mp4" = true :=
  serve_prefers_mp4 ["a.webm", "b.mp4"] (by decide)

/-- C8: deleting a video that exists but is not marked downloaded
removes only its database row; the filesystem is returned untouched,
because the file-deletion block is guarded by `video.is_downloaded`. -/
theorem delete_not_downloaded_preserves_filesystem
    (store : List Video) (fs : List (String × List String)) (video_id : String)
    (v : Video) (hv : DatabaseService.get_video store video_id = some v)
    (hnd : v.is_downloaded = false) :
    Routes.delete_video store fs video_id =
      some (store.filter (fun w => w.id != video_id), fs) := by
  simp [Routes.delete_video, hv, hnd]

/-- Witness for C8: one not-downloaded video whose directory holds a file. -/
theorem delete_not_downloaded_preserves_filesystem_witness :
    Routes.delete_video
      [{ id := "v1", channel_id := "c1", title := "t", description := "",
         published_at := .nowFallback, thumbnail_url := "", duration := 0,
         view_count := 0, like_count := 0 }]
      [("v1", ["stale.mp4"])] "v1" =
      some ([{ id := "v1", channel_id := "c1", title := "t", description := "",
               published_at := .nowFallback, thumbnail_url := "", duration := 0,
               view_count := 0, like_count := 0 }].filter (fun w => w.id != "v1"),
            [("v1", ["stale.mp4"])]) :=
  delete_not_downloaded_preserves_filesystem _ _ _ _ rfl rfl

/-- C9: a video that exists, is marked downloaded, and has no entry in
the in-memory progress map is reported at progress exactly `1.0` by the
progress endpoint, whatever its persisted `download_progress` says. -/
theorem progress_downloaded_reports_one
    (active : ProgressMap) (store : List Video) (video_id : String) (v : Video)
    (hmem : dictLookup active video_id = none)
    (hv : DatabaseService.get_video store video_id = some v)
    (hdl : v.is_downloaded = true) :
    Routes.get_download_progress active store video_id = some 1 := by
  simp [Routes.get_download_progress, YouTubeService.get_download_progress, hmem, hv, hdl]

/-- C4, counterexample: for the syntactically valid range
`bytes=5-3` on a 10-byte file (`start < file_size`), the computed
content length is `-1` and `f.read(-1)` streams the whole tail of the
file, which is not the (empty) byte window `[5, 3]`; the claim as
stated is false for ranges whose end precedes `start - 1`. -/
theorem range_negative_length_counterexample :
    (Routes.serveRange [10, 11, 12, 13, 14, 15, 16, 17, 18, 19] 5 (some 3)).content_length
        = -1 ∧
    (Routes.serveRange [10, 11, 12, 13, 14, 15, 16, 17, 18, 19] 5 (some 3)).body
        = [15, 16, 17, 18, 19] ∧
    Routes.byteWindow [10, 11, 12, 13, 14, 15, 16, 17, 18, 19] 5 3 = [] := by
  decide

/-- C4 (amended): for a range matching `bytes=<start>-[<end>]` with
`start < file_size` and, additionally, a nonnegative resulting length
(`start ≤ clamped end + 1`): the absent end defaults to
`file_size - 1`, the end is clamped to `file_size - 1`, the response is
206 with `Content-Range: bytes <start>-<end>/<size>`,
`Content-Length = end - start + 1`, and the body is exactly the byte
window `[start, end]` of the file. -/
theorem serve_range_partial_content (file : List Nat) (start_range : Nat)
    (end_group : Option Nat)
    (hstart : start_range < file.length)
    (hlen : (start_range : Int) ≤ Routes.clampedEnd (file.length : Int) end_group + 1) :
    (Routes.serveRange file start_range end_group).status = 206 ∧
    (Routes.serveRange file start_range end_group).content_range =
      "bytes " ++ toString start_range ++ "-"
        ++ toString (Routes.clampedEnd (file.length : Int) end_group)
        ++ "/" ++ toString (file.length : Int) ∧
    (end_group = none →
      Routes.clampedEnd (file.length : Int) end_group = (file.length : Int) - 1) ∧
    Routes.clampedEnd (file.length : Int) end_group ≤ (file.length : Int) - 1 ∧
    (Routes.serveRange file start_range end_group).content_length =
      Routes.clampedEnd (file.length : Int) end_group - start_range + 1 ∧
    (Routes.serveRange file start_range end_group).body =
      Routes.byteWindow file start_range
        (Routes.clampedEnd (file.length : Int) end_group) := by
  have hnneg :
      ¬(Routes.clampedEnd (file.length : Int) end_group - (start_range : Int) + 1 < 0) := by
    omega
  refine ⟨rfl, rfl, ?_, ?_, rfl, ?_⟩
  · intro hng
    subst hng
    simp [Routes.clampedEnd]
  · exact min_le_right _ _
  · show Routes.readBytes file start_range _ = _
    unfold Routes.readBytes Routes.byteWindow
    rw [if_neg hnneg]

/-- Witness for C4: a full-tail range with the end defaulted. -/
theorem serve_range_partial_content_witness :
    (Routes.serveRange [0, 1, 2] 1 none).status = 206 :=
  (serve_range_partial_content [0, 1, 2] 1 none (by decide) (by decide)).1

/-- C2, counterexample: a run that exits `0` with zero media files
terminates in the failed `no_files` outcome, yet the in-memory entry
for the video is not evicted: it is left at `1.0` (set on the
success-exit path before the file check), so a subsequent progress
query returns `1.0`, not the `0.0` fallback. -/
theorem no_files_leaves_progress_entry :
    (YouTubeService.download_video "v1" "720p"
        (.run (.completed 0 "" "") []) []).1 =
      ⟨false, some "no_files", YouTubeService.noFilesMessage⟩ ∧
    YouTubeService.get_download_progress
      (YouTubeService.download_video "v1" "720p"
        (.run (.completed 0 "" "") []) []).2 "v1" = 1 := by
  decide

/-- C2 (amended): the in-memory progress entry is evicted on the
failure outcomes caused by a non-zero subprocess exit
(`auth_required`, `download_failed`), making a subsequent progress
query return the `0.0` fallback; on `Failed(no_files)` the entry is
instead left at `1.0`. -/
theorem failed_progress_entry_disposition
    (video_id resolution : String) (ev : YouTubeService.OrchestrationEvent)
    (active : ProgressMap) (et msg : String)
    (hfail : (YouTubeService.download_video video_id resolution ev active).1 =
      ⟨false, some et, msg⟩) :
    (et = "auth_required" ∨ et = "download_failed" →
      dictLookup (YouTubeService.download_video video_id resolution ev active).2
          video_id = none ∧
      YouTubeService.get_download_progress
        (YouTubeService.download_video video_id resolution ev active).2 video_id = 0) ∧
    (et = "no_files" →
      dictLookup (YouTubeService.download_video video_id resolution ev active).2
        video_id = some 1) := by
  cases ev with
  | orchestrationRaised m pt =>
    simp only [YouTubeService.download_video] at hfail ⊢
    injection hfail with h1 h2 h3
    injection h2 with h2
    subst h2
    refine ⟨?_, ?_⟩
    · rintro (h | h) <;> exact absurd h (by decide)
    · intro h
      exact absurd h (by decide)
  | run rev files =>
    simp only [YouTubeService.download_video] at hfail ⊢
    cases hr : ((YouTubeService.run_download resolution rev).result == 0) with
    | true =>
      simp only [hr, if_true] at hfail ⊢
      cases hm : (YouTubeService.mediaFilesIn files).isEmpty with
      | true =>
        simp only [hm, if_true] at hfail ⊢
        injection hfail with h1 h2 h3
        injection h2 with h2
        subst h2
        refine ⟨?_, ?_⟩
        · rintro (h | h) <;> exact absurd h (by decide)
        · intro _
          exact dictLookup_dictInsert_self _ video_id 1
      | false =>
        simp only [hm, Bool.false_eq_true, if_false] at hfail
        exact absurd hfail (by simp)
    | false =>
      simp only [hr, Bool.false_eq_true, if_false] at hfail ⊢
      have hlook :
          dictLookup (dictErase (dictInsert active video_id 0) video_id) video_id
            = none := dictLookup_dictErase_self _ video_id
      have hprog :
          YouTubeService.get_download_progress
            (dictErase (dictInsert active video_id 0) video_id) video_id = 0 := by
        simp [YouTubeService.get_download_progress, hlook]
      cases ha : (YouTubeService.run_download resolution rev).auth_required with
      | true =>
        simp only [ha, if_true] at hfail ⊢
        injection hfail with h1 h2 h3
        injection h2 with h2
        subst h2
        exact ⟨fun _ => ⟨hlook, hprog⟩, fun h => absurd h (by decide)⟩
      | false =>
        simp only [ha, Bool.false_eq_true, if_false] at hfail ⊢
        injection hfail with h1 h2 h3
        injection h2 with h2
        subst h2
        exact ⟨fun _ => ⟨hlook, hprog⟩, fun h => absurd h (by decide)⟩

/-- Witness for C2 (amended): a plain non-zero exit evicts the entry. -/
theorem failed_progress_entry_disposition_witness :
    dictLookup (YouTubeService.download_video "v1" "720p"
      (.run (.completed 1 "" "") []) []).2 "v1" = none ∧
    YouTubeService.get_download_progress
      (YouTubeService.download_video "v1" "720p"
        (.run (.completed 1 "" "") []) []).2 "v1" = 0 :=
  (failed_progress_entry_disposition "v1" "720p" (.run (.completed 1 "" "") []) []
    "download_failed" (YouTubeService.codeMessage 1) (by decide)).1 (Or.inr rfl)

/-- C5, counterexample: a non-zero exit whose output carries the
"requested format not available" message yields the error type
`download_failed` (with a format-specific message), not a distinct
`format_unavailable` outcome: the string `"format_unavailable"` is
never produced by `download_video`. -/
theorem format_message_yields_download_failed :
    (YouTubeService.download_video "v1" "720p"
        (.run (.completed 1 "" "ERROR: requested format not available") []) []).1 =
      ⟨false, some "download_failed", YouTubeService.formatMessage "720p"⟩ := by
  decide

/-- C5 (amended): outcome classification in priority order: exit 0
with zero media files is `Failed(no_files)`; exit 0 with media files is
`Succeeded`; non-zero exit with the age/sign-in message is
`Failed(auth_required)`; non-zero exit with the format message is
`Failed(download_failed)` carrying the format-specific message (there
is no distinct `format_unavailable` outcome); any other non-zero exit
is `Failed(download_failed)` with the exit-code message; an uncaught
orchestration exception is `Failed(exception)`. -/
theorem download_outcome_classification
    (video_id resolution stdout_str stderr_str : String) (returncode : Int)
    (files : List String) (active : ProgressMap) :
    (returncode = 0 → YouTubeService.mediaFilesIn files = [] →
      (YouTubeService.download_video video_id resolution
          (.run (.completed returncode stdout_str stderr_str) files) active).1 =
        ⟨false, some "no_files", YouTubeService.noFilesMessage⟩) ∧
    (returncode = 0 → YouTubeService.mediaFilesIn files ≠ [] →
      (YouTubeService.download_video video_id resolution
          (.run (.completed returncode stdout_str stderr_str) files) active).1 =
        ⟨true, none, YouTubeService.successMessage⟩) ∧
    (returncode ≠ 0 → YouTubeService.hasAgeMessage stdout_str stderr_str = true →
      (YouTubeService.download_video video_id resolution
          (.run (.completed returncode stdout_str stderr_str) files) active).1 =
        ⟨false, some "auth_required", YouTubeService.authRequiredMessage⟩) ∧
    (returncode ≠ 0 → YouTubeService.hasAgeMessage stdout_str stderr_str = false →
      YouTubeService.hasFormatMessage stdout_str stderr_str = true →
      (YouTubeService.download_video video_id resolution
          (.run (.completed returncode stdout_str stderr_str) files) active).1 =
        ⟨false, some "download_failed", YouTubeService.formatMessage resolution⟩) ∧
    (returncode ≠ 0 → YouTubeService.hasAgeMessage stdout_str stderr_str = false →
      YouTubeService.hasFormatMessage stdout_str stderr_str = false →
      (YouTubeService.download_video video_id resolution
          (.run (.completed returncode stdout_str stderr_str) files) active).1 =
        ⟨false, some "download_failed", YouTubeService.codeMessage returncode⟩) ∧
    (∀ msg pt, (YouTubeService.download_video video_id resolution
        (.orchestrationRaised msg pt) active).1 =
      ⟨false, some "exception", "Error: " ++ msg⟩) := by
  refine ⟨?_, ?_, ?_, ?_, ?_, fun msg pt => rfl⟩
  · intro h0 hm
    subst h0
    simp [YouTubeService.download_video, YouTubeService.run_download, hm]
  · intro h0 hm
    subst h0
    have hm2 : (YouTubeService.mediaFilesIn files).isEmpty = false := by
      cases hfiles : YouTubeService.mediaFilesIn files with
      | nil => exact absurd hfiles hm
      | cons a t => rfl
    simp [YouTubeService.download_video, YouTubeService.run_download, hm2]
  · intro hrc hage
    have h1 : (returncode != 0) = true := by simpa using hrc
    have h2 : (returncode == 0) = false := by simpa using hrc
    simp [YouTubeService.download_video, YouTubeService.run_download, h1, h2, hage]
  · intro hrc hage hfmt
    have h1 : (returncode != 0) = true := by simpa using hrc
    have h2 : (returncode == 0) = false := by simpa using hrc
    simp [YouTubeService.download_video, YouTubeService.run_download, h1, h2, hage, hfmt]
  · intro hrc hage hfmt
    have h1 : (returncode != 0) = true := by simpa using hrc
    have h2 : (returncode == 0) = false := by simpa using hrc
    simp [YouTubeService.download_video, YouTubeService.run_download, h1, h2, hage, hfmt]

/-- Witness for C5 (amended): exit 0 with an empty directory is
classified `no_files`. -/
theorem download_outcome_classification_witness :
    (YouTubeService.download_video "v1" "720p"
        (.run (.completed 0 "out" "err") []) []).1 =
      ⟨false, some "no_files", YouTubeService.noFilesMessage⟩ :=
  (download_outcome_classification "v1" "720p" "out" "err" 0 [] []).1 rfl rfl

/-- C3, code bug: a run that exits 0 leaving only an HTML error page
(`video.html`) in the directory returns `Failed(no_files)` and does not
delete the file; the `html_response` classification of `youtube.py`,
lines 593-621, is unreachable (both branches of the preceding
`if download_result == 0` return first, and `downloaded_files` is
always empty because the progress hook is attached only to the unused
`download_opts`), so `Failed(html_response)` is never produced. -/
theorem html_file_yields_no_files :
    (YouTubeService.download_video "v1" "720p"
        (.run (.completed 0 "" "") ["video.html"]) []).1 =
      ⟨false, some "no_files", YouTubeService.noFilesMessage⟩ := by
  decide

/-- C7, code bug: `get_channel_videos` applies no page-size cap: a
subprocess output listing 31 videos yields 31 records.  The
`playlistend: 30` option is set in a `video_opts` dict that is never
passed to the yt-dlp subprocess command. -/
theorem get_channel_videos_no_cap :
    (YouTubeService.get_channel_videos
      ((List.range 31).map (fun i =>
        some ({ id := some ("v" ++ toString i) } : YouTubeService.Entry)))).length = 31 := by
  rfl

/-- C6: reconciliation is idempotent for batches without duplicate ids
(a duplicated new id would make the first round's batch insert violate
the primary key, so such batches never commit): after one reconcile,
running the partition again on the same batch puts every record in the
update partition (`toCreate` is empty), and applying the second round
changes no field of the store. -/
theorem reconcile_idempotent
    (channel_id : String) (fetched : List FetchedVideo) (store : List Video)
    (hnd : (fetched.map FetchedVideo.id).Nodup) :
    (Routes.reconcile channel_id
        (Routes.existing_video_ids (Routes.fetch_videos channel_id fetched store) fetched)
        fetched).1 = [] ∧
    Routes.fetch_videos channel_id fetched (Routes.fetch_videos channel_id fetched store) =
      Routes.fetch_videos channel_id fetched store := by
  have hinj : ∀ x ∈ fetched, ∀ y ∈ fetched, x.id = y.id → x = y := by
    intro x hx y hy hxy
    exact List.inj_on_of_nodup_map hnd hx hy hxy
  have hcre1 :
      (Routes.reconcile channel_id (Routes.existing_video_ids store fetched) fetched).1 =
        (fetched.filter
            (fun v => !((Routes.existing_video_ids store fetched).contains v.id))).map
          (Routes.videoCreateRow channel_id) :=
    reconcile_creates _ _ _
  have hupd1 :
      (Routes.reconcile channel_id (Routes.existing_video_ids store fetched) fetched).2 =
        (fetched.filter
            (fun v => (Routes.existing_video_ids store fetched).contains v.id)).map
          (fun v => (v.id, Routes.videoUpdateFields v)) :=
    reconcile_updates _ _ _ hnd
  have hidstore1 : ∀ v ∈ fetched,
      ∃ w ∈ Routes.fetch_videos channel_id fetched store, w.id = v.id := by
    intro v hv
    by_cases hvs : ∃ w ∈ store, w.id = v.id
    · obtain ⟨w, hw, hwid⟩ := hvs
      refine ⟨DatabaseService.updateRow
          (Routes.reconcile channel_id (Routes.existing_video_ids store fetched) fetched).2 w,
        ?_, ?_⟩
      · rw [fetch_videos_map_form]
        exact List.mem_map.mpr ⟨w, List.mem_append_left _ hw, rfl⟩
      · rw [updateRow_id]
        exact hwid
    · have hnm : v.id ∉ Routes.existing_video_ids store fetched := by
        intro hmem
        exact hvs ((mem_existing_video_ids store fetched v.id).mp hmem).1
      have hrow : Routes.videoCreateRow channel_id v ∈
          (Routes.reconcile channel_id (Routes.existing_video_ids store fetched) fetched).1 := by
        rw [hcre1]
        refine List.mem_map.mpr ⟨v, List.mem_filter.mpr ⟨hv, ?_⟩, rfl⟩
        simpa using hnm
      refine ⟨DatabaseService.updateRow
          (Routes.reconcile channel_id (Routes.existing_video_ids store fetched) fetched).2
          (Routes.videoCreateRow channel_id v), ?_, ?_⟩
      · rw [fetch_videos_map_form]
        exact List.mem_map.mpr ⟨_, List.mem_append_right _ hrow, rfl⟩
      · rw [updateRow_id]
        rfl
  have hex2 : ∀ v ∈ fetched,
      v.id ∈ Routes.existing_video_ids
        (Routes.fetch_videos channel_id fetched store) fetched := by
    intro v hv
    exact (mem_existing_video_ids _ _ _).mpr
      ⟨hidstore1 v hv, List.mem_map.mpr ⟨v, hv, rfl⟩⟩
  have hcre2 : (Routes.reconcile channel_id
      (Routes.existing_video_ids (Routes.fetch_videos channel_id fetched store) fetched)
      fetched).1 = [] := by
    rw [reconcile_creates]
    have hfe : (fetched.filter (fun v =>
        !((Routes.existing_video_ids
            (Routes.fetch_videos channel_id fetched store) fetched).contains v.id))) = [] := by
      rw [List.filter_eq_nil_iff]
      intro v hv hcontra
      have hnm : v.id ∉ Routes.existing_video_ids
          (Routes.fetch_videos channel_id fetched store) fetched := by
        simpa using hcontra
      exact hnm (hex2 v hv)
    rw [hfe, List.map_nil]
  refine ⟨hcre2, ?_⟩
  have hupd2 : (Routes.reconcile channel_id
      (Routes.existing_video_ids (Routes.fetch_videos channel_id fetched store) fetched)
      fetched).2 =
      fetched.map (fun v => (v.id, Routes.videoUpdateFields v)) := by
    rw [reconcile_updates _ _ _ hnd]
    have hfe : (fetched.filter (fun v =>
        (Routes.existing_video_ids
          (Routes.fetch_videos channel_id fetched store) fetched).contains v.id)) =
        fetched := by
      rw [List.filter_eq_self]
      intro v hv
      simpa using hex2 v hv
    rw [hfe]
  rw [fetch_videos_map_form channel_id fetched (Routes.fetch_videos channel_id fetched store),
    hcre2, List.append_nil, hupd2]
  conv_rhs => rw [← List.map_id (Routes.fetch_videos channel_id fetched store)]
  apply List.map_congr_left
  intro w1 hw1
  simp only [id_eq]
  rw [fetch_videos_map_form] at hw1
  obtain ⟨w, hw, rfl⟩ := List.mem_map.mp hw1
  have hwid : (DatabaseService.updateRow
      (Routes.reconcile channel_id (Routes.existing_video_ids store fetched) fetched).2 w).id =
      w.id := updateRow_id _ _
  cases hfind : fetched.find? (fun v => v.id == w.id) with
  | none =>
    exact updateRow_eq_of_lookup_none _ _
      (by rw [hwid, dictLookup_map_pairs, hfind]; rfl)
  | some fv =>
    have hfvmem : fv ∈ fetched := List.mem_of_find?_eq_some hfind
    have hfvid : fv.id = w.id := by simpa using List.find?_some hfind
    have heq : DatabaseService.updateRow (fetched.map (fun v => (v.id, Routes.videoUpdateFields v)))
        (DatabaseService.updateRow
          (Routes.reconcile channel_id (Routes.existing_video_ids store fetched) fetched).2 w) =
        DatabaseService.applyMetaUpdate
          (DatabaseService.updateRow
            (Routes.reconcile channel_id (Routes.existing_video_ids store fetched) fetched).2 w)
          (Routes.videoUpdateFields fv) :=
      updateRow_eq_of_lookup_some _ _ _
        (by rw [hwid, dictLookup_map_pairs, hfind]; rfl)
    rw [heq]
    rcases List.mem_append.mp hw with hws | hwc
    · have hwidf : w.id ∈ fetched.map FetchedVideo.id := by
        rw [← hfvid]
        exact List.mem_map.mpr ⟨fv, hfvmem, rfl⟩
      have hex1c : w.id ∈ Routes.existing_video_ids store fetched :=
        (mem_existing_video_ids store fetched w.id).mpr ⟨⟨w, hws, rfl⟩, hwidf⟩
      have hfvfil : fv ∈ fetched.filter
          (fun v => (Routes.existing_video_ids store fetched).contains v.id) := by
        refine List.mem_filter.mpr ⟨hfvmem, ?_⟩
        rw [hfvid]
        simpa using hex1c
      have hfind1 : (fetched.filter
          (fun v => (Routes.existing_video_ids store fetched).contains v.id)).find?
            (fun v => v.id == w.id) = some fv := by
        cases hf2 : (fetched.filter
            (fun v => (Routes.existing_video_ids store fetched).contains v.id)).find?
              (fun v => v.id == w.id) with
        | none =>
          exact absurd (by simp [hfvid] : (fv.id == w.id) = true)
            (List.find?_eq_none.mp hf2 fv hfvfil)
        | some gv =>
          have hgvmem : gv ∈ fetched :=
            (List.mem_filter.mp (List.mem_of_find?_eq_some hf2)).1
          have hgvid : gv.id = w.id := by simpa using List.find?_some hf2
          have hgveq : gv = fv := hinj gv hgvmem fv hfvmem (by rw [hgvid, hfvid])
          rw [hgveq]
      have hlook1 : dictLookup
          (Routes.reconcile channel_id (Routes.existing_video_ids store fetched) fetched).2
          w.id = some (Routes.videoUpdateFields fv) := by
        rw [hupd1, dictLookup_map_pairs, hfind1]
        rfl
      rw [updateRow_eq_of_lookup_some _ _ _ hlook1]
      rfl
    · rw [hcre1] at hwc
      obtain ⟨gv, hgvfil, rfl⟩ := List.mem_map.mp hwc
      obtain ⟨hgvmem, hgvpred⟩ := List.mem_filter.mp hgvfil
      have hgvnotex : (Routes.existing_video_ids store fetched).contains gv.id = false := by
        simpa using hgvpred
      have hlooknone : dictLookup
          (Routes.reconcile channel_id (Routes.existing_video_ids store fetched) fetched).2
          (Routes.videoCreateRow channel_id gv).id = none := by
        rw [hupd1]
        show dictLookup _ gv.id = none
        rw [dictLookup_map_pairs]
        have hfnone : (fetched.filter
            (fun v => (Routes.existing_video_ids store fetched).contains v.id)).find?
              (fun v => v.id == gv.id) = none := by
          rw [List.find?_eq_none]
          intro hv hhv hbeq
          obtain ⟨hhvmem, hhvc⟩ := List.mem_filter.mp hhv
          have hhveq : hv = gv := hinj hv hhvmem gv hgvmem (by simpa using hbeq)
          rw [hhveq, hgvnotex] at hhvc
          exact Bool.false_ne_true hhvc
        rw [hfnone]
        rfl
      rw [updateRow_eq_of_lookup_none _ _ hlooknone]
      have hfvgv : fv = gv := hinj fv hfvmem gv hgvmem (by rw [hfvid]; rfl)
      rw [hfvgv]
      rfl

/-- Witness for C6: a one-record batch against an empty store. -/
theorem reconcile_idempotent_witness :
    (Routes.reconcile "c1"
        (Routes.existing_video_ids
          (Routes.fetch_videos "c1"
            [{ id := "v1", title := "t", description := "",
               published_at := .nowFallback, thumbnail_url := "", duration := 0,
               view_count := 0, like_count := 0 }] [])
          [{ id := "v1", title := "t", description := "",
             published_at := .nowFallback, thumbnail_url := "", duration := 0,
             view_count := 0, like_count := 0 }])
        [{ id := "v1", title := "t", description := "",
           published_at := .nowFallback, thumbnail_url := "", duration := 0,
           view_count := 0, like_count := 0 }]).1 = [] ∧
    Routes.fetch_videos "c1"
        [{ id := "v1", title := "t", description := "",
           published_at := .nowFallback, thumbnail_url := "", duration := 0,
           view_count := 0, like_count := 0 }]
        (Routes.fetch_videos "c1"
          [{ id := "v1", title := "t", description := "",
             published_at := .nowFallback, thumbnail_url := "", duration := 0,
             view_count := 0, like_count := 0 }] []) =
      Routes.fetch_videos "c1"
        [{ id := "v1", title := "t", description := "",
           published_at := .nowFallback, thumbnail_url := "", duration := 0,
           view_count := 0, like_count := 0 }] [] :=
  reconcile_idempotent "c1"
    [{ id := "v1", title := "t", description := "",
       published_at := .nowFallback, thumbnail_url := "", duration := 0,
       view_count := 0, like_count := 0 }] [] (by decide)

/-- Witness for C9: a downloaded video with persisted progress `1/2`
and an empty in-memory map still reports `1`. -/
theorem progress_downloaded_reports_one_witness :
    Routes.get_download_progress []
      [{ id := "v1", channel_id := "c1", title := "t", description := "",
         published_at := .nowFallback, thumbnail_url := "", duration := 0,
         view_count := 0, like_count := 0, is_downloaded := true,
         downloaded_at := some 7, downloaded_resolution := some "720p",
         download_progress := 1 / 2 }] "v1" = some 1 :=
  progress_downloaded_reports_one _ _ _ _ rfl rfl rfl

end OfflineYt
